import Mathlib

/-!
Verification development for `classify_all_natcomm_gemma_006.py`, a batch
classifier of "data availability" statements.  The Python source is embedded
shallowly: pure string manipulation becomes Lean functions on `List Char`,
the external model process (`call_llama`) becomes an oracle parameter, the
filesystem effects of `process_file` / `main` become explicit values, and
exceptions become `Option`/sum-shaped results.
-/

namespace Davail

/-- `MAX_RETRY = 3` from the configuration block of the source. -/
def MAX_RETRY : Nat := 3

/-- `DATA_COLUMN = "data"` from the configuration block of the source. -/
def DATA_COLUMN : String := "data"

/-- The seven taxonomy labels, in the rank order listed in `CATEGORY_PROMPT`
(source lines 38-44). -/
def taxonomy : List String :=
  ["Fully Public Repository Deposition",
   "Public Within Article / Supplement Only",
   "Reuse of Public Third-Party Data Only",
   "Mixed Public Deposit + Author Request",
   "Controlled-Access Repository Data",
   "Author Upon Request Only",
   "No Data Generated / Not Applicable"]

/-- The `CATEGORY_PROMPT` string constant of the source (lines 33-59),
verbatim. -/
def CATEGORY_PROMPT : String :=
  "\nYou must classify the Data Availability statement into EXACTLY ONE category.\n\nCategories ordered from highest to lowest public accessibility:\n\n1. Fully Public Repository Deposition\n2. Public Within Article / Supplement Only\n3. Reuse of Public Third-Party Data Only\n4. Mixed Public Deposit + Author Request\n5. Controlled-Access Repository Data\n6. Author Upon Request Only\n7. No Data Generated / Not Applicable\n\nStrict rules:\n- Choose EXACTLY ONE category.\n- Follow the accessibility hierarchy.\n- Output ONLY valid JSON.\n- Do not use markdown.\n- Do not wrap in ```json.\n- Do not add explanations outside JSON.\n\nOutput format:\n\x7b\n  \"category\": \"EXACT CATEGORY NAME\",\n  \"reason\": \"short explanation\"\n\x7d\n"

/-- The f-string prompt built by `classify_text` (source lines 86-93):
a leading newline, `CATEGORY_PROMPT`, the statement text between triple
quotes, and the final directive. -/
def build_prompt (text : String) : String :=
  "\n" ++ CATEGORY_PROMPT ++ "\n\nData Availability Statement:\n\"\"\"" ++
    text ++ "\"\"\"\n\nClassify now.\n"

/-!
## `extract_json` (source lines 75-81)

Python does `text.replace("```json", "").replace("```", "")` and then
`re.search(r"\x7b.*\x7d", text, re.DOTALL)`.  `str.replace` deletes all
non-overlapping occurrences left to right; the regex search returns the
leftmost match, and the greedy `.*` under DOTALL extends it to the last
closing brace of the whole string.  So the result is the span from the
first brace-open of the string through the last brace-close, provided the
former strictly precedes the latter, and `None` otherwise.
-/

/-- Fuel-indexed worker for `replaceAll`; the fuel is an upper bound on the
length of the list, so the `0, _` case is never reached from `replaceAll`. -/
def replaceAllAux (pat : List Char) : Nat → List Char → List Char
  | _, [] => []
  | 0, l => l
  | fuel + 1, c :: rest =>
    if pat.isPrefixOf (c :: rest) then
      replaceAllAux pat fuel (rest.drop (pat.length - 1))
    else
      c :: replaceAllAux pat fuel rest

/-- Left-to-right deletion of all non-overlapping occurrences of `pat`,
the semantics of Python `str.replace(pat, "")`. -/
def replaceAll (pat : List Char) (l : List Char) : List Char :=
  replaceAllAux pat l.length l

/-- The two chained `replace` calls of `extract_json`: first `"```json"`,
then `"```"`, each replaced by the empty string. -/
def stripFences (l : List Char) : List Char :=
  replaceAll ("```".data) (replaceAll ("```json".data) l)

/-- The longest prefix of `l` that ends at the last `'\x7d'` of `l`
(`none` when `l` has no `'\x7d'`).  This is how far the greedy `.*\x7d`
extends. -/
def takeToLastClose : List Char → Option (List Char)
  | [] => none
  | c :: rest =>
    match takeToLastClose rest with
    | some t => some (c :: t)
    | none => if c = '\x7d' then some [c] else none

/-- The leftmost-greedy match of the pattern `\x7b.*\x7d` under DOTALL:
from the first `'\x7b'` of the list through the last `'\x7d'`, when the
former strictly precedes the latter. -/
def findSpan : List Char → Option (List Char)
  | [] => none
  | c :: rest =>
    if c = '\x7b' then
      match takeToLastClose rest with
      | some t => some (c :: t)
      | none => none
    else
      findSpan rest

/-- `extract_json` of the source: strip markdown fences, then return the
greedy `\x7b.*\x7d` span, or `None` when there is no match. -/
def extract_json (text : String) : Option String :=
  (findSpan (stripFences text.data)).map String.mk

/-!
## `json.loads` plus the two field accesses (source lines 102-103)

The source parses the extracted span with `json.loads` and immediately
reads `parsed["category"]` and `parsed["reason"]`; any exception
(parse error, missing key, wrong shape) is swallowed and causes a retry.
We embed the fragment of that behaviour the program exercises: a flat
JSON object with exactly two fields whose values are escape-free strings.
Inputs outside this fragment are mapped to `none` (= an exception in
Python, hence a retry); on the fragment the embedding agrees with
`json.loads`, including whitespace tolerance, key order, and
last-wins duplicate keys.
-/

/-- JSON inter-token whitespace, as accepted by Python `json.loads`. -/
def isWs (c : Char) : Bool := c = ' ' || c = '\t' || c = '\n' || c = '\r'

/-- Skip inter-token whitespace. -/
def skipWs (l : List Char) : List Char := l.dropWhile isWs

/-- A character that may sit unescaped inside a JSON string literal:
not a quote, not a backslash, not a control character. -/
def jsonStrChar (c : Char) : Bool := c ≠ '"' && c ≠ '\\' && 32 ≤ c.toNat

/-- Scan the body of a JSON string literal up to its closing quote.
Escapes and control characters are outside the embedded fragment. -/
def pStrAux : List Char → Option (List Char × List Char)
  | [] => none
  | c :: rest =>
    if c = '"' then some ([], rest)
    else if jsonStrChar c then
      match pStrAux rest with
      | some (s, r) => some (c :: s, r)
      | none => none
    else none

/-- Parse a JSON string literal (opening quote, body, closing quote). -/
def pStr : List Char → Option (List Char × List Char)
  | [] => none
  | c :: rest => if c = '"' then pStrAux rest else none

/-- Demand the single token `c` at the head of the input. -/
def expectChar (c : Char) : List Char → Option (List Char)
  | [] => none
  | x :: rest => if x = c then some rest else none

/-- Parse one `"key": "value"` pair, with surrounding whitespace. -/
def pPair (l : List Char) : Option ((List Char × List Char) × List Char) :=
  match pStr (skipWs l) with
  | none => none
  | some (k, r1) =>
    match expectChar ':' (skipWs r1) with
    | none => none
    | some r2 =>
      match pStr (skipWs r2) with
      | none => none
      | some (v, r3) => some ((k, v), r3)

/-- `json.loads` on a two-field flat object followed by the
`parsed["category"]` and `parsed["reason"]` lookups (dict semantics:
with a duplicate key the later pair wins).  `none` models any Python
exception along the way. -/
def pTwoField (l : List Char) : Option (String × String) :=
  match expectChar '\x7b' (skipWs l) with
  | none => none
  | some r0 =>
    match pPair r0 with
    | none => none
    | some ((k1, v1), r1) =>
      match expectChar ',' (skipWs r1) with
      | none => none
      | some r2 =>
        match pPair r2 with
        | none => none
        | some ((k2, v2), r3) =>
          match expectChar '\x7d' (skipWs r3) with
          | none => none
          | some r4 =>
            if skipWs r4 = [] then
              match
                (if k2 = "category".data then some v2
                 else if k1 = "category".data then some v1 else none),
                (if k2 = "reason".data then some v2
                 else if k1 = "reason".data then some v1 else none) with
              | some c, some r => some (String.mk c, String.mk r)
              | _, _ => none
            else none

/-- One classification attempt on a raw model output: `extract_json`
followed by parse and field access.  `none` means the attempt failed and
the loop retries. -/
def attemptParse (out : String) : Option (String × String) :=
  (extract_json out).bind (fun s => pTwoField s.data)

/-!
## `classify_text` (source lines 84-109)

The model call `call_llama` spawns an external process; we model it as an
oracle `llama : String → Nat → String` giving, for each prompt and each
attempt number, the (stripped) stdout of that invocation.  The loop makes
at most `MAX_RETRY` attempts, returns the first successfully parsed
`(category, reason)`, and after exhausting the retries returns
`("ERROR", output)` where `output` is the raw text of the last attempt.
The pair is returned together with the number of model invocations
performed, so the statements below can speak about the call count.
-/

/-- The retry loop of `classify_text`: `fuel` iterations remain, `i` is the
index of the next attempt, `last` the raw output of the previous attempt.
Returns the result pair and the number of model invocations performed. -/
def classify_attempts (call : Nat → String) :
    Nat → Nat → String → (String × String) × Nat
  | 0, _, last => (("ERROR", last), 0)
  | fuel + 1, i, _ =>
    let output := call i
    match attemptParse output with
    | some res => (res, 1)
    | none =>
      let r := classify_attempts call fuel (i + 1) output
      (r.1, r.2 + 1)

/-- `classify_text` of the source: build the prompt once, then run the
retry loop against the model oracle. -/
def classify_text (llama : String → Nat → String) (text : String) :
    String × String :=
  (classify_attempts (llama (build_prompt text)) MAX_RETRY 0 "").1

/-- Number of model invocations `classify_text` performs for `text`. -/
def classify_calls (llama : String → Nat → String) (text : String) : Nat :=
  (classify_attempts (llama (build_prompt text)) MAX_RETRY 0 "").2

/-!
## `process_file` (source lines 116-140)

A pandas `DataFrame` loaded from a CSV is a list of column names and a
list of rows; a cell either holds text or is the missing value `NaN`
(pandas turns an empty or absent CSV field into `NaN`, and Python
`str(nan)` is the literal `"nan"`).  `pd.read_csv` may raise — modelled by
`LoadResult.err` carrying `str(e)`.  `df.to_csv(output_path)` opens the
output path and streams the rows; it may succeed, fail before creating
the file, or raise midway leaving a prefix of the intended file on disk —
modelled by `WriteOutcome`.  The resulting on-disk state at the unit's
output path is a `FileData`.
-/

/-- A loaded cell: text, or the pandas missing value `NaN`. -/
inductive Cell
  | str : String → Cell
  | null
deriving DecidableEq, Repr

/-- Python `str()` applied to a loaded cell: `str(nan) = "nan"`. -/
def Cell.toStr : Cell → String
  | .str s => s
  | .null => "nan"

/-- A pandas `DataFrame`: column names plus rows aligned with them
(`read_csv` pads short rows with `NaN`, so lookup defaults to `null`). -/
structure Table where
  columns : List String
  rows : List (List Cell)
deriving DecidableEq, Repr

/-- Whitespace as stripped by Python `str.strip()`. -/
def pyWs (c : Char) : Bool :=
  c = ' ' || c = '\t' || c = '\n' || c = '\r' || c = '\x0b' || c = '\x0c'

/-- Python `str.strip()`: remove leading and trailing whitespace. -/
def pyStrip (s : String) : String :=
  String.mk (((s.data.dropWhile pyWs).reverse.dropWhile pyWs).reverse)

/-- `df.columns = df.columns.str.strip()` (source line 123). -/
def Table.stripCols (t : Table) : Table :=
  { columns := t.columns.map pyStrip, rows := t.rows }

/-- `df[name] = v` on a DataFrame with a scalar `v`: replace the column if
the name exists, otherwise append it, and set every row's entry. -/
def Table.setCol (t : Table) (name : String) (v : Cell) : Table :=
  if name ∈ t.columns then
    { columns := t.columns,
      rows := t.rows.map (fun row => row.set (t.columns.indexOf name) v) }
  else
    { columns := t.columns ++ [name],
      rows := t.rows.map (fun row => row ++ [v]) }

/-- Result of `pd.read_csv(input_path)`: a table, or an exception whose
`str(e)` is the payload. -/
inductive LoadResult
  | ok : Table → LoadResult
  | err : String → LoadResult

/-- Behaviour of `df.to_csv(output_path)` for this unit: success; an
exception before the file is created; or an exception after `k` rows have
been streamed, leaving a truncated file. -/
inductive WriteOutcome
  | ok
  | errBefore : String → WriteOutcome
  | errDuring : Nat → String → WriteOutcome

/-- The external world one `process_file` call interacts with: the load
result for its input path, the model oracle, and the write behaviour. -/
structure FileEnv where
  load : LoadResult
  llama : String → Nat → String
  write : WriteOutcome

/-- State of the unit's output path after `process_file`: no file, the
complete intended file, or a truncated prefix (`k` rows) of it. -/
inductive FileData
  | absent
  | full : Table → FileData
  | prefixRows : Table → Nat → FileData
deriving DecidableEq

/-- `process_file` of the source: returns the status string, the on-disk
state of the unit's output path, and (instrumentation) the list of texts
handed to `classify_text`. -/
def process_file (env : FileEnv) (filename : String) :
    String × FileData × List String :=
  match env.load with
  | .err e => ("Error in " ++ filename ++ ": " ++ e, .absent, [])
  | .ok df0 =>
    let df := df0.stripCols
    if DATA_COLUMN ∈ df.columns then
      match df.rows with
      | [] =>
        ("Error in " ++ filename ++ ": single positional indexer is out-of-bounds",
         .absent, [])
      | r :: _ =>
        let text := (r.getD (df.columns.indexOf DATA_COLUMN) Cell.null).toStr
        let cr := classify_text env.llama text
        let out := (df.setCol "Category" (.str cr.1)).setCol "Reason" (.str cr.2)
        match env.write with
        | .ok => ("Done: " ++ filename, .full out, [text])
        | .errBefore e =>
          ("Error in " ++ filename ++ ": " ++ e, .absent, [text])
        | .errDuring k e =>
          ("Error in " ++ filename ++ ": " ++ e, .prefixRows out k, [text])
    else ("Column missing: " ++ filename, .absent, [])

/-!
## `main`'s resumable dispatch (source lines 179-204)

`main` lists the input basenames, removes those whose basename already
exists among the persisted output files, and dispatches exactly the rest
to `process_file`.  A unit is represented by its basename together with
its `FileEnv`; the output directory is the list of `(basename, FileData)`
pairs on disk.  One pass returns the new directory contents and the
number of dispatched units.
-/

/-- The `(basename, file)` entry `process_file` leaves in the output
directory, if any. -/
def writtenEntry (u : String × FileEnv) : Option (String × FileData) :=
  let fd := (process_file u.2 u.1).2.1
  if fd = FileData.absent then none else some (u.1, fd)

/-- One pipeline pass: filter out inputs whose basename already has an
output file, dispatch the rest, and collect the files they leave.
Returns the resulting output directory and the dispatch count. -/
def runPass (units : List (String × FileEnv))
    (fs : List (String × FileData)) : List (String × FileData) × Nat :=
  let remaining := units.filter (fun u => decide (u.1 ∉ fs.map Prod.fst))
  (fs ++ remaining.filterMap writtenEntry, remaining.length)

/-!
## `merge_outputs` (source lines 147-160)

Reads every persisted per-unit CSV, concatenates them with
`pd.concat(..., ignore_index=True)` (row counts add), and writes the
final file; with no persisted files it only prints a diagnostic and
returns.  `none` models "no final file written".
-/

/-- `merge_outputs` of the source, on the list of loaded per-unit tables:
`none` when the output directory is empty, otherwise the concatenated
rows of the final merged file. -/
def merge_outputs (dfs : List Table) : Option (List (List Cell)) :=
  if dfs.isEmpty then none
  else some ((dfs.map Table.rows).flatten)

/-!
## Lemmas about the retry loop
-/

/-- One-step unfolding of the loop when the current attempt parses. -/
theorem classify_attempts_some (call : Nat → String) (fuel i : Nat)
    (last : String) (res : String × String)
    (h : attemptParse (call i) = some res) :
    classify_attempts call (fuel + 1) i last = (res, 1) := by
  simp [classify_attempts, h]

/-- One-step unfolding of the loop when the current attempt fails. -/
theorem classify_attempts_none (call : Nat → String) (fuel i : Nat)
    (last : String) (h : attemptParse (call i) = none) :
    classify_attempts call (fuel + 1) i last =
      ((classify_attempts call fuel (i + 1) (call i)).1,
       (classify_attempts call fuel (i + 1) (call i)).2 + 1) := by
  simp [classify_attempts, h]

/-- The retry loop performs at most `fuel` model invocations. -/
theorem classify_attempts_le (call : Nat → String) :
    ∀ fuel i last, (classify_attempts call fuel i last).2 ≤ fuel := by
  intro fuel
  induction fuel with
  | zero => intro i last; simp [classify_attempts]
  | succ n ih =>
    intro i last
    simp only [classify_attempts]
    cases h : attemptParse (call i) with
    | some res => simp
    | none =>
      simpa using Nat.succ_le_succ (ih (i + 1) (call i))

/-- If the first `k` attempts fail and attempt `i + k` parses to `res`,
the loop stops there with `k + 1` invocations. -/
theorem classify_attempts_success (call : Nat → String) :
    ∀ fuel i last k res, k < fuel →
    (∀ j, i ≤ j → j < i + k → attemptParse (call j) = none) →
    attemptParse (call (i + k)) = some res →
    classify_attempts call fuel i last = (res, k + 1) := by
  intro fuel
  induction fuel with
  | zero => intro i last k res hk; omega
  | succ n ih =>
    intro i last k res hk hfail hok
    cases k with
    | zero =>
      simp only [Nat.add_zero] at hok
      simp [classify_attempts, hok]
    | succ m =>
      have h0 : attemptParse (call i) = none := hfail i le_rfl (by omega)
      have hrec : classify_attempts call n (i + 1) (call i) = (res, m + 1) := by
        refine ih (i + 1) (call i) m res (by omega) ?_ ?_
        · intro j hj1 hj2
          exact hfail j (by omega) (by omega)
        · have : i + 1 + m = i + (m + 1) := by omega
          rw [this]; exact hok
      simp [classify_attempts, h0, hrec]

/-- If every attempt in the window fails, the loop exhausts its fuel and
returns `"ERROR"` with the raw output of the last attempt. -/
theorem classify_attempts_fail (call : Nat → String) :
    ∀ fuel i last, 0 < fuel →
    (∀ j, i ≤ j → j < i + fuel → attemptParse (call j) = none) →
    classify_attempts call fuel i last = (("ERROR", call (i + fuel - 1)), fuel) := by
  intro fuel
  induction fuel with
  | zero => intro i last h; omega
  | succ n ih =>
    intro i last _ hfail
    have h0 : attemptParse (call i) = none := hfail i le_rfl (by omega)
    cases n with
    | zero => simp [classify_attempts, h0]
    | succ m =>
      have hrec := ih (i + 1) (call i) (by omega)
        (fun j hj1 hj2 => hfail j (by omega) (by omega))
      have harith : i + 1 + (m + 1) - 1 = i + (m + 1 + 1) - 1 := by omega
      rw [classify_attempts_none call (m + 1) i last h0, hrec, harith]

/-- Whatever the oracle does, the loop's result is either the `"ERROR"`
sentinel or the parse of some model output it actually received. -/
theorem classify_attempts_spec (call : Nat → String) :
    ∀ fuel i last,
    (classify_attempts call fuel i last).1.1 = "ERROR" ∨
    ∃ j, i ≤ j ∧ j < i + fuel ∧
      attemptParse (call j) = some (classify_attempts call fuel i last).1 := by
  intro fuel
  induction fuel with
  | zero => intro i last; left; rfl
  | succ n ih =>
    intro i last
    simp only [classify_attempts]
    cases h : attemptParse (call i) with
    | some res => exact Or.inr ⟨i, le_rfl, by omega, h⟩
    | none =>
      rcases ih (i + 1) (call i) with herr | ⟨j, hj1, hj2, hj3⟩
      · exact Or.inl herr
      · exact Or.inr ⟨j, by omega, by omega, hj3⟩

/-!
## Lemmas about extraction and parsing
-/

/-- A string all of whose characters may sit unescaped in a JSON string
literal. -/
def goodStr (l : List Char) : Prop := ∀ x ∈ l, jsonStrChar x = true

instance (l : List Char) : Decidable (goodStr l) :=
  List.decidableBAll _ l

/-- A JSON string literal `"s"` followed by `rest`. -/
def litStr (s rest : List Char) : List Char := '"' :: (s ++ ('"' :: rest))

/-- The body (between the braces) of the canonical serialization
`\x7b"category": "c", "reason": "r"\x7d`, continued by `rest`. -/
def jsonBody (c r rest : List Char) : List Char :=
  litStr "category".data (':' :: ' ' :: litStr c
    (',' :: ' ' :: litStr "reason".data (':' :: ' ' :: litStr r rest)))

/-- The canonical serialization of a two-field classification object. -/
def mkJson (c r : String) : List Char :=
  '\x7b' :: jsonBody c.data r.data ['\x7d']

theorem litStr_append (s rest : List Char) :
    litStr s rest = litStr s [] ++ rest := by
  simp [litStr]

theorem jsonBody_append (c r rest : List Char) :
    jsonBody c r rest = jsonBody c r [] ++ rest := by
  simp [jsonBody, litStr]

theorem pStrAux_of_good (s : List Char) (rest : List Char)
    (h : goodStr s) : pStrAux (s ++ '"' :: rest) = some (s, rest) := by
  induction s with
  | nil => simp [pStrAux]
  | cons c s ih =>
    have hc := h c (by simp)
    have hne : ¬ c = '"' := by
      simp only [jsonStrChar, Bool.and_eq_true, decide_eq_true_eq] at hc
      exact hc.1.1
    have ihs := ih (fun x hx => h x (by simp [hx]))
    simp [pStrAux, hne, hc, ihs]

theorem skipWs_not_ws (c : Char) (l : List Char) (h : isWs c = false) :
    skipWs (c :: l) = c :: l := by
  simp [skipWs, List.dropWhile_cons, h]

theorem skipWs_ws (c : Char) (l : List Char) (h : isWs c = true) :
    skipWs (c :: l) = skipWs l := by
  simp [skipWs, List.dropWhile_cons, h]

theorem skipWs_space (l : List Char) : skipWs (' ' :: l) = skipWs l :=
  skipWs_ws _ _ (by decide)

theorem pStr_litStr (s rest : List Char) (h : goodStr s) :
    pStr (skipWs (litStr s rest)) = some (s, rest) := by
  rw [litStr, skipWs_not_ws '"' _ (by decide)]
  simp [pStr, pStrAux_of_good s rest h]

theorem expectChar_hit (c : Char) (l : List Char) :
    expectChar c (c :: l) = some l := by
  simp [expectChar]

theorem pPair_litStr (k v rest : List Char) (hk : goodStr k)
    (hv : goodStr v) :
    pPair (litStr k (':' :: ' ' :: litStr v rest)) = some ((k, v), rest) := by
  simp only [pPair, pStr_litStr k _ hk, skipWs_not_ws ':' _ (by decide),
    expectChar_hit, skipWs_space, pStr_litStr v rest hv]

theorem pPair_space (l : List Char) : pPair (' ' :: l) = pPair l := by
  rw [pPair, pPair, skipWs_space]

theorem pTwoField_mkJson (c r : String) (hc : goodStr c.data)
    (hr : goodStr r.data) : pTwoField (mkJson c r) = some (c, r) := by
  simp only [pTwoField, mkJson, jsonBody,
    skipWs_not_ws '\x7b' _ (by decide), expectChar_hit,
    pPair_litStr "category".data c.data _ (by decide) hc,
    skipWs_not_ws ',' _ (by decide), pPair_space,
    pPair_litStr "reason".data r.data _ (by decide) hr,
    skipWs_not_ws '\x7d' _ (by decide)]
  simp [skipWs]

/-!
## Lemmas about the greedy span scan
-/

theorem takeToLastClose_none (l : List Char) (h : '\x7d' ∉ l) :
    takeToLastClose l = none := by
  induction l with
  | nil => rfl
  | cons c rest ih =>
    have hc : ¬ c = '\x7d' := fun hh => h (by simp [hh])
    have hrest := ih (fun hh => h (by simp [hh]))
    simp [takeToLastClose, hrest, hc]

theorem takeToLastClose_append (b : List Char) (hb : '\x7d' ∉ b) :
    ∀ m, takeToLastClose (m ++ b) = takeToLastClose m := by
  intro m
  induction m with
  | nil => simp [takeToLastClose, takeToLastClose_none b hb]
  | cons c m ih =>
    rw [List.cons_append, takeToLastClose, takeToLastClose, ih]

theorem takeToLastClose_snoc (m : List Char) :
    takeToLastClose (m ++ ['\x7d']) = some (m ++ ['\x7d']) := by
  induction m with
  | nil => rfl
  | cons c m ih => rw [List.cons_append, takeToLastClose, ih]

theorem findSpan_append (a l : List Char) (ha : '\x7b' ∉ a) :
    findSpan (a ++ l) = findSpan l := by
  induction a with
  | nil => rfl
  | cons c a ih =>
    have hc : ¬ c = '\x7b' := fun hh => ha (by simp [hh])
    have hrec := ih (fun hh => ha (by simp [hh]))
    simp [findSpan, hc, hrec]

theorem findSpan_obj (a inner b : List Char) (ha : '\x7b' ∉ a)
    (hb : '\x7d' ∉ b) :
    findSpan (a ++ '\x7b' :: ((inner ++ ['\x7d']) ++ b)) =
      some ('\x7b' :: (inner ++ ['\x7d'])) := by
  rw [findSpan_append a _ ha]
  rw [findSpan]
  rw [takeToLastClose_append b hb, takeToLastClose_snoc]
  simp

theorem replaceAllAux_sublist (pat : List Char) :
    ∀ fuel l, List.Sublist (replaceAllAux pat fuel l) l := by
  intro fuel
  induction fuel with
  | zero =>
    intro l
    cases l with
    | nil => simp [replaceAllAux]
    | cons c rest => simp [replaceAllAux]
  | succ n ih =>
    intro l
    cases l with
    | nil => simp [replaceAllAux]
    | cons c rest =>
      rw [replaceAllAux]
      by_cases hp : pat.isPrefixOf (c :: rest)
      · simp only [hp, if_true]
        exact ((ih _).trans (List.drop_sublist _ _)).cons c
      · simp only [hp, if_false]
        exact (ih rest).cons₂ c

theorem stripFences_sublist (l : List Char) : List.Sublist (stripFences l) l :=
  (replaceAllAux_sublist _ _ _).trans (replaceAllAux_sublist _ _ _)

theorem findSpan_eq_none (l : List Char)
    (h : ¬ List.Sublist ['\x7b', '\x7d'] l) : findSpan l = none := by
  induction l with
  | nil => rfl
  | cons c rest ih =>
    rw [findSpan]
    by_cases hc : c = '\x7b'
    · subst hc
      simp only [if_true]
      cases htc : takeToLastClose rest with
      | none => rfl
      | some t =>
        exfalso
        have hmem : '\x7d' ∈ rest := by
          by_contra hnot
          rw [takeToLastClose_none rest hnot] at htc
          exact Option.noConfusion htc
        exact h ((List.singleton_sublist.mpr hmem).cons₂ '\x7b')
    · simp only [hc, if_false]
      exact ih (fun hs => h (hs.cons c))

/-!
## Lemmas about `process_file`
-/

/-- The text sent to the classifier: Python
`str(df.iloc[0][DATA_COLUMN])` on the first row `r`. -/
def cellText (df : Table) (r : List Cell) : String :=
  (r.getD (df.stripCols.columns.indexOf DATA_COLUMN) Cell.null).toStr

/-- The intended output table: the loaded table with the `Category` and
`Reason` columns set to the classification result. -/
def outTable (df : Table) (lm : String → Nat → String) (r : List Cell) :
    Table :=
  (df.stripCols.setCol "Category"
      (Cell.str (classify_text lm (cellText df r)).1)).setCol
    "Reason" (Cell.str (classify_text lm (cellText df r)).2)

theorem process_file_load_err (lm : String → Nat → String)
    (wr : WriteOutcome) (e fn : String) :
    process_file ⟨.err e, lm, wr⟩ fn =
      ("Error in " ++ fn ++ ": " ++ e, .absent, []) := rfl

theorem process_file_missing (df : Table) (lm : String → Nat → String)
    (wr : WriteOutcome) (fn : String)
    (h : DATA_COLUMN ∉ df.stripCols.columns) :
    process_file ⟨.ok df, lm, wr⟩ fn =
      ("Column missing: " ++ fn, .absent, []) := by
  simp only [process_file]
  rw [if_neg h]

theorem process_file_empty (df : Table) (lm : String → Nat → String)
    (wr : WriteOutcome) (fn : String)
    (hc : DATA_COLUMN ∈ df.stripCols.columns)
    (hr : df.stripCols.rows = []) :
    process_file ⟨.ok df, lm, wr⟩ fn =
      ("Error in " ++ fn ++ ": single positional indexer is out-of-bounds",
       .absent, []) := by
  simp only [process_file]
  rw [if_pos hc, hr]

theorem process_file_row (df : Table) (lm : String → Nat → String)
    (wr : WriteOutcome) (fn : String) (r : List Cell)
    (rs : List (List Cell))
    (hc : DATA_COLUMN ∈ df.stripCols.columns)
    (hr : df.stripCols.rows = r :: rs) :
    process_file ⟨.ok df, lm, wr⟩ fn =
      match wr with
      | .ok => ("Done: " ++ fn, .full (outTable df lm r), [cellText df r])
      | .errBefore e =>
        ("Error in " ++ fn ++ ": " ++ e, .absent, [cellText df r])
      | .errDuring k e =>
        ("Error in " ++ fn ++ ": " ++ e, .prefixRows (outTable df lm r) k,
         [cellText df r]) := by
  simp only [process_file, outTable, cellText]
  rw [if_pos hc, hr]

/-!
## Claims
-/

/-- C3: `classify_text` performs at most `MAX_RETRY` (= 3) model
invocations for one input text, and if extraction and parsing first
succeed on the attempt with 0-based index `k` (so attempt `k + 1 ≤
MAX_RETRY` in 1-based counting), the loop returns that parse immediately
after exactly `k + 1` invocations. -/
theorem classify_text_retry_bound (llama : String → Nat → String)
    (text : String) :
    classify_calls llama text ≤ MAX_RETRY ∧
    ∀ k, k < MAX_RETRY →
      (∀ j, j < k → attemptParse (llama (build_prompt text) j) = none) →
      ∀ res, attemptParse (llama (build_prompt text) k) = some res →
        classify_calls llama text = k + 1 ∧ classify_text llama text = res := by
  constructor
  · exact classify_attempts_le (llama (build_prompt text)) MAX_RETRY 0 ""
  · intro k hk hfail res hok
    have h := classify_attempts_success (llama (build_prompt text))
      MAX_RETRY 0 "" k res hk
      (fun j hj1 hj2 => hfail j (by omega)) (by simpa using hok)
    constructor
    · simp [classify_calls, h]
    · simp [classify_text, h]

/-- Witness for C3: a model oracle that answers with valid JSON on the
first attempt costs exactly one invocation. -/
theorem classify_text_retry_bound_witness :
    classify_calls
        (fun _ _ =>
          "\x7b\"category\": \"Fully Public Repository Deposition\", \"reason\": \"public repo\"\x7d")
        "s" = 0 + 1 ∧
    classify_text
        (fun _ _ =>
          "\x7b\"category\": \"Fully Public Repository Deposition\", \"reason\": \"public repo\"\x7d")
        "s" = ("Fully Public Repository Deposition", "public repo") :=
  (classify_text_retry_bound
      (fun _ _ =>
        "\x7b\"category\": \"Fully Public Repository Deposition\", \"reason\": \"public repo\"\x7d")
      "s").2 0 (by decide) (fun j hj => absurd hj (Nat.not_lt_zero j))
    ("Fully Public Repository Deposition", "public repo") (by decide)

/-- C6: when all `MAX_RETRY` attempts fail to extract and parse,
`classify_text` returns the literal category `"ERROR"` together with the
raw model output of the last attempt. -/
theorem classify_text_terminal_failure (llama : String → Nat → String)
    (text : String)
    (h : ∀ i, i < MAX_RETRY → attemptParse (llama (build_prompt text) i) = none) :
    classify_text llama text =
      ("ERROR", llama (build_prompt text) (MAX_RETRY - 1)) := by
  have hfail := classify_attempts_fail (llama (build_prompt text))
    MAX_RETRY 0 "" (by decide) (fun j hj1 hj2 => h j (by omega))
  simp [classify_text, hfail]

/-- C2 (amended): extraction tolerates markdown fencing and stray prose
as long as the prose puts no `'\x7b'` before the embedded object and no
`'\x7d'` after it: whenever what remains after fence-stripping is such
prose around the canonical two-field object, `extract_json` followed by
parsing recovers exactly the embedded `category` and `reason`.  And for
any text with no `'\x7b'` preceding a `'\x7d'` (so no `\x7b.*\x7d` span),
`extract_json` returns `none` (Python `None`), and, being a total
function, never raises. -/
theorem extract_json_tolerance :
    (∀ (t : String) (a b : List Char) (c r : String),
        '\x7b' ∉ a → '\x7d' ∉ b → goodStr c.data → goodStr r.data →
        stripFences t.data = a ++ (mkJson c r ++ b) →
        attemptParse t = some (c, r)) ∧
    (∀ t : String, ¬ List.Sublist ['\x7b', '\x7d'] t.data →
        extract_json t = none) := by
  constructor
  · intro t a b c r ha hb hcg hrg hsplit
    have h2 : stripFences t.data =
        a ++ '\x7b' :: ((jsonBody c.data r.data [] ++ ['\x7d']) ++ b) := by
      rw [hsplit, mkJson, jsonBody_append]
      simp
    have hf : findSpan (stripFences t.data) =
        some ('\x7b' :: (jsonBody c.data r.data [] ++ ['\x7d'])) := by
      rw [h2]
      exact findSpan_obj a _ b ha hb
    have hx : '\x7b' :: (jsonBody c.data r.data [] ++ ['\x7d']) = mkJson c r := by
      rw [mkJson, jsonBody_append c.data r.data ['\x7d']]
    simp only [attemptParse, extract_json, hf, Option.map_some', Option.some_bind]
    rw [hx]
    exact pTwoField_mkJson c r hcg hrg
  · intro t ht
    have hns : ¬ List.Sublist ['\x7b', '\x7d'] (stripFences t.data) :=
      fun hs => ht (hs.trans (stripFences_sublist t.data))
    simp [extract_json, findSpan_eq_none _ hns]

/-- Witness for C2: a fenced, prose-surrounded model answer is recovered
exactly, and a braceless answer extracts to `none`. -/
theorem extract_json_tolerance_witness :
    attemptParse
        "Sure!\n```json\n\x7b\"category\": \"Author Upon Request Only\", \"reason\": \"contact authors\"\x7d\n```\nBye." =
      some ("Author Upon Request Only", "contact authors") ∧
    extract_json "no structured data here at all" = none :=
  ⟨extract_json_tolerance.1
      "Sure!\n```json\n\x7b\"category\": \"Author Upon Request Only\", \"reason\": \"contact authors\"\x7d\n```\nBye."
      "Sure!\n\n".data "\n\nBye.".data
      "Author Upon Request Only" "contact authors"
      (by decide) (by decide) (by decide) (by decide) (by decide),
   extract_json_tolerance.2 "no structured data here at all" (by decide)⟩

/-- Counterexample for C2 as stated: this model output contains the
markdown-fenced valid two-field object (third conjunct shows the literal
decomposition, second that the object alone parses), yet because the
trailing prose contains a `'\x7d'` the greedy span is too long and
extraction followed by parsing fails instead of recovering the object. -/
theorem extract_json_tolerance_counterexample :
    attemptParse
        "```json\n\x7b\"category\": \"Author Upon Request Only\", \"reason\": \"contact authors\"\x7d\n```\nHope this helps :-\x7d" =
      none ∧
    pTwoField (mkJson "Author Upon Request Only" "contact authors") =
      some ("Author Upon Request Only", "contact authors") ∧
    "```json\n\x7b\"category\": \"Author Upon Request Only\", \"reason\": \"contact authors\"\x7d\n```\nHope this helps :-\x7d" =
      String.mk ("```json\n".data ++
        (mkJson "Author Upon Request Only" "contact authors" ++
          "\n```\nHope this helps :-\x7d".data)) := by
  refine ⟨by decide, by decide, by decide⟩

/-- C1 (amended): whatever file `process_file` leaves at the unit's
output path carries in its `Category` column either the literal `"ERROR"`
or the `category` field of a model response that parsed successfully —
an arbitrary string supplied by the model; the code never validates it
against the seven taxonomy labels. -/
theorem category_from_model_or_error (env : FileEnv) (fn : String)
    (t : Table)
    (hfile : (process_file env fn).2.1 = FileData.full t ∨
      ∃ k, (process_file env fn).2.1 = FileData.prefixRows t k) :
    ∃ df c r, env.load = .ok df ∧
      t = (df.stripCols.setCol "Category" (Cell.str c)).setCol "Reason"
            (Cell.str r) ∧
      (c = "ERROR" ∨ ∃ text i, i < MAX_RETRY ∧
        attemptParse (env.llama (build_prompt text) i) = some (c, r)) := by
  obtain ⟨ld, lm, wr⟩ := env
  cases ld with
  | err e =>
    rw [process_file_load_err] at hfile
    rcases hfile with hfile | ⟨k, hfile⟩ <;> exact absurd hfile (by simp)
  | ok df =>
    by_cases hc : DATA_COLUMN ∈ df.stripCols.columns
    · cases hrows : df.stripCols.rows with
      | nil =>
        rw [process_file_empty df lm wr fn hc hrows] at hfile
        rcases hfile with hfile | ⟨k, hfile⟩ <;> exact absurd hfile (by simp)
      | cons r0 rs =>
        rw [process_file_row df lm wr fn r0 rs hc hrows] at hfile
        have hspec := classify_attempts_spec (lm (build_prompt (cellText df r0)))
          MAX_RETRY 0 ""
        have hout : ∃ df2 c r, LoadResult.ok df = .ok df2 ∧
            outTable df lm r0 =
              (df2.stripCols.setCol "Category" (Cell.str c)).setCol "Reason"
                (Cell.str r) ∧
            (c = "ERROR" ∨ ∃ text i, i < MAX_RETRY ∧
              attemptParse (lm (build_prompt text) i) = some (c, r)) := by
          refine ⟨df, (classify_text lm (cellText df r0)).1,
            (classify_text lm (cellText df r0)).2, rfl, rfl, ?_⟩
          rcases hspec with herr | ⟨j, hj1, hj2, hj3⟩
          · exact Or.inl herr
          · exact Or.inr ⟨cellText df r0, j, by omega, by
              rw [hj3]; rfl⟩
        cases wr with
        | ok =>
          rcases hfile with hfile | ⟨k, hfile⟩
          · simp only at hfile
            obtain rfl : outTable df lm r0 = t := by
              injection hfile
            exact hout
          · exact absurd hfile (by simp)
        | errBefore e =>
          rcases hfile with hfile | ⟨k, hfile⟩ <;> exact absurd hfile (by simp)
        | errDuring k0 e =>
          rcases hfile with hfile | ⟨k, hfile⟩
          · exact absurd hfile (by simp)
          · simp only at hfile
            obtain rfl : outTable df lm r0 = t := by
              injection hfile with h1 h2
            exact hout
    · rw [process_file_missing df lm wr fn hc] at hfile
      rcases hfile with hfile | ⟨k, hfile⟩ <;> exact absurd hfile (by simp)

/-- Witness for C1 (amended), at an oracle answering a taxonomy label. -/
theorem category_from_model_or_error_witness :
    ∃ df c r,
      (FileEnv.mk (.ok ⟨["data"], [[.str "stmt"]]⟩)
        (fun _ _ =>
          "\x7b\"category\": \"Author Upon Request Only\", \"reason\": \"ask\"\x7d")
        .ok).load = .ok df ∧
      (⟨["data", "Category", "Reason"],
        [[Cell.str "stmt", Cell.str "Author Upon Request Only",
          Cell.str "ask"]]⟩ : Table) =
        (df.stripCols.setCol "Category" (Cell.str c)).setCol "Reason"
          (Cell.str r) ∧
      (c = "ERROR" ∨ ∃ text i, i < MAX_RETRY ∧
        attemptParse
          ((fun (_ : String) (_ : Nat) =>
            "\x7b\"category\": \"Author Upon Request Only\", \"reason\": \"ask\"\x7d")
            (build_prompt text) i) = some (c, r)) :=
  category_from_model_or_error
    (FileEnv.mk (.ok ⟨["data"], [[.str "stmt"]]⟩)
      (fun _ _ =>
        "\x7b\"category\": \"Author Upon Request Only\", \"reason\": \"ask\"\x7d")
      .ok)
    "w.csv" _ (Or.inl (by decide))

/-- Counterexample for C1 as stated: a model response whose `category`
field is `"Banana"` is written verbatim into the `Category` column,
although `"Banana"` is neither one of the seven taxonomy labels nor
`"ERROR"`. -/
theorem category_from_model_or_error_counterexample :
    process_file
        (FileEnv.mk (.ok ⟨["data"], [[.str "stmt"]]⟩)
          (fun _ _ => "\x7b\"category\": \"Banana\", \"reason\": \"because\"\x7d")
          .ok)
        "a.csv" =
      ("Done: a.csv",
       FileData.full ⟨["data", "Category", "Reason"],
         [[Cell.str "stmt", Cell.str "Banana", Cell.str "because"]]⟩,
       ["stmt"]) ∧
    "Banana" ∉ taxonomy ∧ "Banana" ≠ "ERROR" := by
  refine ⟨by decide, by decide, by decide⟩

/-- C4 (amended): `process_file` never raises — it always returns one of
the three status shapes — and any exception before the write step leaves
no file at the unit's output path; a file other than the complete
intended one can only be a truncated prefix left by a failure of the
write itself (`df.to_csv` is not atomic). -/
theorem process_file_persistence (env : FileEnv) (fn : String) :
    ((process_file env fn).2.1 = FileData.absent ∧
      ((process_file env fn).1 = "Column missing: " ++ fn ∨
       ∃ e, (process_file env fn).1 = "Error in " ++ fn ++ ": " ++ e)) ∨
    (∃ t, (process_file env fn).2.1 = FileData.full t ∧
      (process_file env fn).1 = "Done: " ++ fn) ∨
    (∃ t k e, (process_file env fn).2.1 = FileData.prefixRows t k ∧
      env.write = WriteOutcome.errDuring k e ∧
      (process_file env fn).1 = "Error in " ++ fn ++ ": " ++ e) := by
  obtain ⟨ld, lm, wr⟩ := env
  cases ld with
  | err e =>
    rw [process_file_load_err]
    exact Or.inl ⟨rfl, Or.inr ⟨e, rfl⟩⟩
  | ok df =>
    by_cases hc : DATA_COLUMN ∈ df.stripCols.columns
    · cases hrows : df.stripCols.rows with
      | nil =>
        rw [process_file_empty df lm wr fn hc hrows]
        refine Or.inl ⟨rfl,
          Or.inr ⟨"single positional indexer is out-of-bounds", ?_⟩⟩
        simp [String.append_assoc]
      | cons r0 rs =>
        rw [process_file_row df lm wr fn r0 rs hc hrows]
        cases wr with
        | ok => exact Or.inr (Or.inl ⟨outTable df lm r0, rfl, rfl⟩)
        | errBefore e => exact Or.inl ⟨rfl, Or.inr ⟨e, rfl⟩⟩
        | errDuring k e =>
          exact Or.inr (Or.inr ⟨outTable df lm r0, k, e, rfl, rfl, rfl⟩)
    · rw [process_file_missing df lm wr fn hc]
      exact Or.inl ⟨rfl, Or.inl rfl⟩

/-- Counterexample for C4 as stated: a write that fails with the file
partly streamed (here: immediately after creating it) is caught and
reported as an error status, but a truncated file remains at the unit's
output path — persistence is not all-or-nothing. -/
theorem process_file_persistence_counterexample :
    (process_file
        (FileEnv.mk (.ok ⟨["data"], [[.str "stmt"]]⟩)
          (fun _ _ =>
            "\x7b\"category\": \"Author Upon Request Only\", \"reason\": \"r\"\x7d")
          (.errDuring 0 "No space left on device"))
        "a.csv").1 = "Error in a.csv: No space left on device" ∧
    (process_file
        (FileEnv.mk (.ok ⟨["data"], [[.str "stmt"]]⟩)
          (fun _ _ =>
            "\x7b\"category\": \"Author Upon Request Only\", \"reason\": \"r\"\x7d")
          (.errDuring 0 "No space left on device"))
        "a.csv").2.1 ≠ FileData.absent := by
  refine ⟨by decide, by decide⟩

/-- C7: a unit whose table lacks the required text column (after
trimming column names) yields the distinct `"Column missing"` status,
classifies nothing (empty instrumentation trace), leaves no output file,
and removing such a unit from a pass does not change the files the other
units produce. -/
theorem process_file_missing_column (env : FileEnv) (fn : String)
    (df : Table) (hload : env.load = .ok df)
    (h : DATA_COLUMN ∉ df.stripCols.columns) :
    process_file env fn = ("Column missing: " ++ fn, .absent, []) ∧
    ∀ (pre post : List (String × FileEnv)) (fs : List (String × FileData)),
      (runPass (pre ++ (fn, env) :: post) fs).1 =
        (runPass (pre ++ post) fs).1 := by
  obtain ⟨ld, lm, wr⟩ := env
  cases hload
  refine ⟨process_file_missing df lm wr fn h, ?_⟩
  intro pre post fs
  have hw : writtenEntry (fn, FileEnv.mk (.ok df) lm wr) = none := by
    simp [writtenEntry, process_file_missing df lm wr fn h]
  simp only [runPass, List.filter_append, List.filter_cons,
    List.filterMap_append]
  by_cases hcon : fn ∈ fs.map Prod.fst
  · simp [hcon]
  · simp [hcon, List.filterMap_cons, hw]

/-- Witness for C7 at a one-column table lacking `data`. -/
theorem process_file_missing_column_witness :
    process_file
        (FileEnv.mk (.ok ⟨["other"], [[.str "x"]]⟩) (fun _ _ => "") .ok)
        "u.csv" = ("Column missing: u.csv", .absent, []) ∧
    (runPass [("u.csv",
        FileEnv.mk (.ok ⟨["other"], [[.str "x"]]⟩) (fun _ _ => "") .ok)]
      []).1 = (runPass [] []).1 :=
  ⟨(process_file_missing_column
      (FileEnv.mk (.ok ⟨["other"], [[.str "x"]]⟩) (fun _ _ => "") .ok)
      "u.csv" ⟨["other"], [[.str "x"]]⟩ rfl (by decide)).1,
   (process_file_missing_column
      (FileEnv.mk (.ok ⟨["other"], [[.str "x"]]⟩) (fun _ _ => "") .ok)
      "u.csv" ⟨["other"], [[.str "x"]]⟩ rfl (by decide)).2 [] [] []⟩

/-- C8: on a multi-row table, only the designated cell of the first row
is ever classified — the instrumentation trace of texts handed to the
classifier is exactly the first row's `data` cell, so the texts of all
subsequent rows are never passed to the classifier. -/
theorem process_file_first_row_only (env : FileEnv) (fn : String)
    (df : Table) (r : List Cell) (rs : List (List Cell))
    (hload : env.load = .ok df)
    (hc : DATA_COLUMN ∈ df.stripCols.columns)
    (hr : df.stripCols.rows = r :: rs) :
    (process_file env fn).2.2 = [cellText df r] := by
  obtain ⟨ld, lm, wr⟩ := env
  cases hload
  rw [process_file_row df lm wr fn r rs hc hr]
  cases wr <;> rfl

/-- Witness for C8 on a two-row table: only `"first"` is classified. -/
theorem process_file_first_row_only_witness :
    (process_file
        (FileEnv.mk (.ok ⟨["data"], [[.str "first"], [.str "second"]]⟩)
          (fun _ _ => "") .ok)
        "m.csv").2.2 =
      [cellText ⟨["data"], [[.str "first"], [.str "second"]]⟩ [.str "first"]] :=
  process_file_first_row_only
    (FileEnv.mk (.ok ⟨["data"], [[.str "first"], [.str "second"]]⟩)
      (fun _ _ => "") .ok)
    "m.csv" ⟨["data"], [[.str "first"], [.str "second"]]⟩
    [.str "first"] [[.str "second"]] rfl (by decide) rfl

/-- C10: a present `data` column whose first-row cell is the missing
value is not skipped and raises nothing: the cell is coerced with
Python `str` to the literal text `"nan"`, that text is classified like
any other statement, and a normal output file is written. -/
theorem process_file_null_cell (env : FileEnv) (fn : String) (df : Table)
    (r : List Cell) (rs : List (List Cell))
    (hload : env.load = .ok df)
    (hc : DATA_COLUMN ∈ df.stripCols.columns)
    (hr : df.stripCols.rows = r :: rs)
    (hcell : r.getD (df.stripCols.columns.indexOf DATA_COLUMN) Cell.null =
      Cell.null)
    (hw : env.write = .ok) :
    process_file env fn =
      ("Done: " ++ fn,
       .full ((df.stripCols.setCol "Category"
           (Cell.str (classify_text env.llama "nan").1)).setCol "Reason"
           (Cell.str (classify_text env.llama "nan").2)),
       ["nan"]) := by
  obtain ⟨ld, lm, wr⟩ := env
  cases hload
  cases hw
  have ht : cellText df r = "nan" := by
    rw [cellText, hcell]
    rfl
  rw [process_file_row df lm WriteOutcome.ok fn r rs hc hr]
  simp only [outTable, ht]

/-- Witness for C10 on a table whose single `data` cell is missing. -/
theorem process_file_null_cell_witness :
    process_file
        (FileEnv.mk (.ok ⟨[" data "], [[Cell.null]]⟩)
          (fun _ _ =>
            "\x7b\"category\": \"No Data Generated / Not Applicable\", \"reason\": \"empty\"\x7d")
          .ok)
        "n.csv" =
      ("Done: " ++ "n.csv",
       .full (((Table.mk [" data "] [[Cell.null]]).stripCols.setCol "Category"
           (Cell.str (classify_text
             (fun _ _ =>
               "\x7b\"category\": \"No Data Generated / Not Applicable\", \"reason\": \"empty\"\x7d")
             "nan").1)).setCol "Reason"
           (Cell.str (classify_text
             (fun _ _ =>
               "\x7b\"category\": \"No Data Generated / Not Applicable\", \"reason\": \"empty\"\x7d")
             "nan").2)),
       ["nan"]) :=
  process_file_null_cell
    (FileEnv.mk (.ok ⟨[" data "], [[Cell.null]]⟩)
      (fun _ _ =>
        "\x7b\"category\": \"No Data Generated / Not Applicable\", \"reason\": \"empty\"\x7d")
      .ok)
    "n.csv" ⟨[" data "], [[Cell.null]]⟩ [Cell.null] [] rfl (by decide)
    rfl (by decide) rfl

/-- Witness for C6: an oracle always answering prose with no braces makes
every attempt fail, and the result is `("ERROR", that last output)`. -/
theorem classify_text_terminal_failure_witness :
    classify_text (fun _ _ => "I cannot classify this statement.") "s" =
      ("ERROR",
       (fun (_ : String) (_ : Nat) => "I cannot classify this statement.")
         (build_prompt "s") (MAX_RETRY - 1)) :=
  classify_text_terminal_failure
    (fun _ _ => "I cannot classify this statement.") "s"
    (fun i _ =>
      (by decide : attemptParse "I cannot classify this statement." = none))

/-- C5 (amended): a second pass dispatches zero units and leaves the
output directory unchanged provided the first pass persisted an output
file for every input unit; an input whose basename already exists among
the persisted outputs is excluded from the remaining work set, but a
unit that produced no file (missing column, error) is dispatched again. -/
theorem run_twice_dispatches_zero (units : List (String × FileEnv))
    (fs : List (String × FileData))
    (h : ∀ u ∈ units, (process_file u.2 u.1).2.1 ≠ FileData.absent) :
    runPass units (runPass units fs).1 = ((runPass units fs).1, 0) := by
  have hmem : ∀ u ∈ units, u.1 ∈ ((runPass units fs).1.map Prod.fst) := by
    intro u hu
    simp only [runPass, List.map_append, List.mem_append]
    by_cases hcon : u.1 ∈ fs.map Prod.fst
    · exact Or.inl hcon
    · right
      have hfil : u ∈ units.filter
          (fun v => decide (v.1 ∉ fs.map Prod.fst)) := by
        rw [List.mem_filter]
        exact ⟨hu, by simpa using hcon⟩
      have hwe : writtenEntry u = some (u.1, (process_file u.2 u.1).2.1) := by
        rw [writtenEntry]
        rw [if_neg (h u hu)]
      refine List.mem_map.mpr ⟨(u.1, (process_file u.2 u.1).2.1), ?_, rfl⟩
      exact List.mem_filterMap.mpr ⟨u, hfil, hwe⟩
  have hrem : units.filter
      (fun v => decide (v.1 ∉ (runPass units fs).1.map Prod.fst)) = [] := by
    rw [List.filter_eq_nil_iff]
    intro u hu
    simpa using hmem u hu
  rw [show runPass units (runPass units fs).1 =
        ((runPass units fs).1 ++
          (units.filter
            (fun v => decide (v.1 ∉ (runPass units fs).1.map Prod.fst))).filterMap
            writtenEntry,
         (units.filter
            (fun v => decide (v.1 ∉ (runPass units fs).1.map Prod.fst))).length)
      from rfl]
  rw [hrem]
  simp

/-- Witness for C5 (amended): one unit that persists its output; the
second pass dispatches nothing and changes nothing. -/
theorem run_twice_dispatches_zero_witness :
    runPass
        [("a.csv", FileEnv.mk (.ok ⟨["data"], [[.str "s"]]⟩)
          (fun _ _ =>
            "\x7b\"category\": \"Author Upon Request Only\", \"reason\": \"r\"\x7d")
          .ok)]
        ((runPass
          [("a.csv", FileEnv.mk (.ok ⟨["data"], [[.str "s"]]⟩)
            (fun _ _ =>
              "\x7b\"category\": \"Author Upon Request Only\", \"reason\": \"r\"\x7d")
            .ok)] []).1) =
      ((runPass
          [("a.csv", FileEnv.mk (.ok ⟨["data"], [[.str "s"]]⟩)
            (fun _ _ =>
              "\x7b\"category\": \"Author Upon Request Only\", \"reason\": \"r\"\x7d")
            .ok)] []).1, 0) :=
  run_twice_dispatches_zero _ [] (by decide)

/-- Counterexample for C5 as stated: a unit whose table lacks the `data`
column produces no output file, so the second run dispatches it again
(dispatch count 1, not 0). -/
theorem run_twice_dispatches_zero_counterexample :
    (runPass
        [("a.csv", FileEnv.mk (.ok ⟨["other"], [[.str "x"]]⟩)
          (fun _ _ => "") .ok)]
        ((runPass
          [("a.csv", FileEnv.mk (.ok ⟨["other"], [[.str "x"]]⟩)
            (fun _ _ => "") .ok)] []).1)).2 = 1 := by
  decide

/-- C9: with at least one persisted per-unit output file, the merged
artifact exists and its row count is the sum of the row counts of the
per-unit files; with an empty output directory no final file is
written. -/
theorem merge_outputs_row_count (dfs : List Table) :
    (dfs ≠ [] → ∃ m, merge_outputs dfs = some m ∧
      m.length = (dfs.map (fun d => d.rows.length)).sum) ∧
    merge_outputs [] = none := by
  constructor
  · intro h
    refine ⟨(dfs.map Table.rows).flatten, ?_, ?_⟩
    · simp [merge_outputs, h]
    · simp only [List.length_flatten, List.map_map]
      rfl
  · rfl

/-- Witness for C9 on two files with one and two rows: 3 merged rows. -/
theorem merge_outputs_row_count_witness :
    ∃ m,
      merge_outputs [⟨["a"], [[Cell.str "x"]]⟩,
        ⟨["a"], [[Cell.str "y"], [Cell.null]]⟩] = some m ∧
      m.length =
        ([⟨["a"], [[Cell.str "x"]]⟩,
          (⟨["a"], [[Cell.str "y"], [Cell.null]]⟩ : Table)].map
            (fun d => d.rows.length)).sum :=
  (merge_outputs_row_count _).1 (by decide)

end Davail
